import Mathlib

/-
Verification development for the traffic-intersection simulation core
(src/src/car.rs).  The per-vehicle state machine, the waypoint-path
synthesizer and the geometry primitives are embedded shallowly: f64
arithmetic is modelled by the real numbers (exact arithmetic), the pure
segment-orientation geometry by the rationals.  The traffic-light
controller and the window dimensions live outside src/ and are modelled
from the spec as an abstract query interface and an explicit
configuration value.
-/

namespace TrafficSim

open scoped Classical

noncomputable section

/-- MAX_SPEED constant from car.rs. -/
def MAX_SPEED : ℝ := 5.0

/-- ACCELERATION constant from car.rs. -/
def ACCELERATION : ℝ := 0.15

/-- DECELERATION constant from car.rs. -/
def DECELERATION : ℝ := 0.3

/-- DISTANCE_THRESHOLD constant from car.rs (waypoint-reached radius). -/
def DISTANCE_THRESHOLD : ℝ := 5.0

/-- CAR_WIDTH constant from car.rs (vehicle length along its heading). -/
def CAR_WIDTH : ℝ := 50.0

/-- CAR_HEIGHT constant from car.rs. -/
def CAR_HEIGHT : ℝ := 33.0

/-- LANE_WIDTH constant from car.rs. -/
def LANE_WIDTH : ℝ := CAR_HEIGHT * 2.0

/-- NUM_PATH_POINTS constant from car.rs. -/
def NUM_PATH_POINTS : ℕ := 25

/-- The largest finite f64 value, the initial accumulator of the
closest-car scan (f64::MAX in the source). -/
def f64MAX : ℝ := 2 ^ 1024 - 2 ^ 971

/-- A 2D point, modelling a Rust (f64, f64) pair. -/
abbrev Point : Type := ℝ × ℝ

/-- Origin enum from car.rs: the edge a vehicle spawns from. -/
inductive Origin : Type where
  | North
  | South
  | East
  | West
deriving DecidableEq

/-- Direction enum from car.rs: the maneuver a vehicle performs. -/
inductive Direction : Type where
  | Left
  | Right
  | Straight
deriving DecidableEq

/-- Direction::from in car.rs decodes a maneuver index; an out-of-range
index aborts, modelled here by none. -/
def Direction.fromIndex : ℕ → Option Direction
  | 0 => some Direction.Left
  | 1 => some Direction.Right
  | 2 => some Direction.Straight
  | _ => none

/-- Modelled from the spec: the window dimensions WIDTH and HEIGHT are
crate-level constants defined outside src/ (spec section 9 directs that
they be threaded through as an explicit configuration value).  Path
synthesis and spawn positions take this configuration as a parameter. -/
structure Config : Type where
  width : ℝ
  height : ℝ

/-- SimplifiedCar from the traffic-light controller interface: the
(origin, direction) identity of a tracked vehicle. -/
structure SimplifiedCar : Type where
  origin : Origin
  direction : Direction

/-- Modelled from the spec: the intersection scheduler
(traffic_light_controller.rs is not under src/) is abstracted by its
query surface is_green / is_yellow (spec section 6).  Its remove_car
operation mutates only scheduler-internal occupancy bookkeeping (spec
sections 3 and 7) and has no effect on the vehicle's own state within a
tick, so the controller appears here as a read-only phase oracle. -/
structure TrafficLight : Type where
  isGreen : Origin → Direction → Bool
  isYellow : Origin → Direction → Bool

/-- get_position in car.rs: the spawn position for an origin and lane. -/
def getPosition (cfg : Config) (o : Origin) (d : Direction) : Point :=
  let middle : Point := (cfg.width / 2.0, cfg.height / 2.0)
  let offset : ℝ :=
    match d with
    | Direction.Left => 0.0
    | Direction.Straight => 1.0
    | Direction.Right => 2.0
  match o with
  | Origin.North =>
      (middle.1 - LANE_WIDTH / 2.0 - offset * LANE_WIDTH, -CAR_WIDTH / 2.0)
  | Origin.South =>
      (middle.1 + LANE_WIDTH / 2.0 + offset * LANE_WIDTH, cfg.height + CAR_WIDTH / 2.0)
  | Origin.East =>
      (cfg.width + CAR_WIDTH / 2.0, middle.2 - LANE_WIDTH / 2.0 - offset * LANE_WIDTH)
  | Origin.West =>
      (-CAR_WIDTH / 2.0, middle.2 + LANE_WIDTH / 2.0 + offset * LANE_WIDTH)

/-- generate_straight_path_third in car.rs: the initial straight run of
NUM_PATH_POINTS / 3 points from the spawn edge toward the intersection. -/
def straightPathThird (cfg : Config) (o : Origin) (d : Direction) : List Point :=
  let vertical_point_gap : ℝ :=
    (cfg.height / 2.0 - LANE_WIDTH * 3.0 + CAR_WIDTH / 2.0) / ((NUM_PATH_POINTS / 3 : ℕ) : ℝ)
  let horizontal_point_gap : ℝ :=
    (cfg.width / 2.0 - LANE_WIDTH * 3.0 + CAR_WIDTH / 2.0) / ((NUM_PATH_POINTS / 3 : ℕ) : ℝ)
  let position := getPosition cfg o d
  match o with
  | Origin.North =>
      (List.range (NUM_PATH_POINTS / 3)).map fun (i : ℕ) =>
        (position.1, position.2 + (i : ℝ) * vertical_point_gap)
  | Origin.South =>
      (List.range (NUM_PATH_POINTS / 3)).map fun (i : ℕ) =>
        (position.1, position.2 - (i : ℝ) * vertical_point_gap)
  | Origin.East =>
      (List.range (NUM_PATH_POINTS / 3)).map fun (i : ℕ) =>
        (position.1 - (i : ℝ) * horizontal_point_gap, position.2)
  | Origin.West =>
      (List.range (NUM_PATH_POINTS / 3)).map fun (i : ℕ) =>
        (position.1 + (i : ℝ) * horizontal_point_gap, position.2)

/-- generate_left_turn_path in car.rs: approach third, quarter-turn arc
of radius 3.5 lane widths (emitted reversed), then the translated exit
third. -/
def generateLeftTurnPath (cfg : Config) (o : Origin) : List Point :=
  let middle : Point := (cfg.width / 2.0, cfg.height / 2.0)
  let path := straightPathThird cfg o Direction.Left
  let turn_origin : Point :=
    match o with
    | Origin.North => (middle.1 + LANE_WIDTH * 3.0, middle.2 - LANE_WIDTH * 3.0)
    | Origin.South => (middle.1 - LANE_WIDTH * 3.0, middle.2 + LANE_WIDTH * 3.0)
    | Origin.East => (middle.1 + LANE_WIDTH * 3.0, middle.2 + LANE_WIDTH * 3.0)
    | Origin.West => (middle.1 - LANE_WIDTH * 3.0, middle.2 - LANE_WIDTH * 3.0)
  let turn_path : List Point :=
    match o with
    | Origin.North =>
        (List.range (NUM_PATH_POINTS / 3)).map fun (i : ℕ) =>
          let angle : ℝ :=
            (i : ℝ) / ((NUM_PATH_POINTS : ℝ) / 3.0) * Real.pi / 2.0 - Real.pi / 2.0
          (turn_origin.1 - Real.cos angle * LANE_WIDTH * 3.5,
           turn_origin.2 - Real.sin angle * LANE_WIDTH * 3.5)
    | Origin.South =>
        (List.range (NUM_PATH_POINTS / 3)).map fun (i : ℕ) =>
          let angle : ℝ :=
            (i : ℝ) / ((NUM_PATH_POINTS : ℝ) / 3.0) * Real.pi / 2.0 + Real.pi / 2.0
          (turn_origin.1 - Real.cos angle * LANE_WIDTH * 3.5,
           turn_origin.2 - Real.sin angle * LANE_WIDTH * 3.5)
    | Origin.East =>
        (List.range (NUM_PATH_POINTS / 3)).map fun (i : ℕ) =>
          let angle : ℝ :=
            (i : ℝ) / ((NUM_PATH_POINTS : ℝ) / 3.0) * Real.pi / 2.0 + Real.pi / 2.0
          (turn_origin.1 - Real.sin angle * LANE_WIDTH * 3.5,
           turn_origin.2 + Real.cos angle * LANE_WIDTH * 3.5)
    | Origin.West =>
        (List.range (NUM_PATH_POINTS / 3)).map fun (i : ℕ) =>
          let angle : ℝ :=
            (i : ℝ) / ((NUM_PATH_POINTS : ℝ) / 3.0) * Real.pi / 2.0 + Real.pi / 2.0
          (turn_origin.1 + Real.sin angle * LANE_WIDTH * 3.5,
           turn_origin.2 - Real.cos angle * LANE_WIDTH * 3.5)
  let exit_origin : Origin :=
    match o with
    | Origin.North => Origin.West
    | Origin.South => Origin.East
    | Origin.East => Origin.North
    | Origin.West => Origin.South
  let last_third_path : List Point :=
    (straightPathThird cfg exit_origin Direction.Left).map fun p =>
      match o with
      | Origin.North => (p.1 + (middle.1 + LANE_WIDTH * 4.0), p.2)
      | Origin.South => (p.1 - (middle.1 + LANE_WIDTH * 4.0), p.2)
      | Origin.East => (p.1, p.2 + (middle.2 + LANE_WIDTH * 4.0))
      | Origin.West => (p.1, p.2 - (middle.2 + LANE_WIDTH * 4.0))
  path ++ turn_path.reverse ++ last_third_path

/-- generate_right_turn_path in car.rs: approach third, tight quarter
turn of radius half a lane width (in generated order), then the
translated exit third. -/
def generateRightTurnPath (cfg : Config) (o : Origin) : List Point :=
  let middle : Point := (cfg.width / 2.0, cfg.height / 2.0)
  let path := straightPathThird cfg o Direction.Right
  let turn_origin : Point :=
    match o with
    | Origin.North => (middle.1 - LANE_WIDTH * 3.0, middle.2 - LANE_WIDTH * 3.0)
    | Origin.South => (middle.1 + LANE_WIDTH * 3.0, middle.2 + LANE_WIDTH * 3.0)
    | Origin.East => (middle.1 + LANE_WIDTH * 3.0, middle.2 - LANE_WIDTH * 3.0)
    | Origin.West => (middle.1 - LANE_WIDTH * 3.0, middle.2 + LANE_WIDTH * 3.0)
  let turn_path : List Point :=
    match o with
    | Origin.North =>
        (List.range (NUM_PATH_POINTS / 3)).map fun (i : ℕ) =>
          let angle : ℝ := (i : ℝ) / ((NUM_PATH_POINTS : ℝ) / 3.0) * Real.pi / 2.0
          (turn_origin.1 + Real.cos angle * LANE_WIDTH / 2.0,
           turn_origin.2 + Real.sin angle * LANE_WIDTH / 2.0)
    | Origin.South =>
        (List.range (NUM_PATH_POINTS / 3)).map fun (i : ℕ) =>
          let angle : ℝ := (i : ℝ) / ((NUM_PATH_POINTS : ℝ) / 3.0) * Real.pi / 2.0
          (turn_origin.1 - Real.cos angle * LANE_WIDTH / 2.0,
           turn_origin.2 - Real.sin angle * LANE_WIDTH / 2.0)
    | Origin.East =>
        (List.range (NUM_PATH_POINTS / 3)).map fun (i : ℕ) =>
          let angle : ℝ := (i : ℝ) / ((NUM_PATH_POINTS : ℝ) / 3.0) * Real.pi / 2.0
          (turn_origin.1 - Real.sin angle * LANE_WIDTH / 2.0,
           turn_origin.2 + Real.cos angle * LANE_WIDTH / 2.0)
    | Origin.West =>
        (List.range (NUM_PATH_POINTS / 3)).map fun (i : ℕ) =>
          let angle : ℝ := (i : ℝ) / ((NUM_PATH_POINTS : ℝ) / 3.0) * Real.pi / 2.0
          (turn_origin.1 + Real.sin angle * LANE_WIDTH / 2.0,
           turn_origin.2 - Real.cos angle * LANE_WIDTH / 2.0)
  let exit_origin : Origin :=
    match o with
    | Origin.North => Origin.East
    | Origin.South => Origin.West
    | Origin.East => Origin.South
    | Origin.West => Origin.North
  let last_third_path : List Point :=
    (straightPathThird cfg exit_origin Direction.Right).map fun p =>
      match o with
      | Origin.North => (p.1 - (middle.1 + LANE_WIDTH * 4.0), p.2)
      | Origin.South => (p.1 + (middle.1 + LANE_WIDTH * 4.0), p.2)
      | Origin.East => (p.1, p.2 - (middle.2 + LANE_WIDTH * 4.0))
      | Origin.West => (p.1, p.2 + (middle.2 + LANE_WIDTH * 4.0))
  path ++ turn_path ++ last_third_path

/-- generate_straight_path in car.rs: NUM_PATH_POINTS points straight
across the full simulated area. -/
def generateStraightPath (cfg : Config) (o : Origin) : List Point :=
  let vertical_point_gap : ℝ := (cfg.height + CAR_WIDTH / 2.0) / ((NUM_PATH_POINTS : ℕ) : ℝ)
  let horizontal_point_gap : ℝ := (cfg.width + CAR_WIDTH / 2.0) / ((NUM_PATH_POINTS : ℕ) : ℝ)
  let position := getPosition cfg o Direction.Straight
  match o with
  | Origin.North =>
      (List.range NUM_PATH_POINTS).map fun (i : ℕ) =>
        (position.1, position.2 + (i : ℝ) * vertical_point_gap)
  | Origin.South =>
      (List.range NUM_PATH_POINTS).map fun (i : ℕ) =>
        (position.1, position.2 - (i : ℝ) * vertical_point_gap)
  | Origin.East =>
      (List.range NUM_PATH_POINTS).map fun (i : ℕ) =>
        (position.1 - (i : ℝ) * horizontal_point_gap, position.2)
  | Origin.West =>
      (List.range NUM_PATH_POINTS).map fun (i : ℕ) =>
        (position.1 + (i : ℝ) * horizontal_point_gap, position.2)

/-- The Car struct from car.rs. -/
structure Car : Type where
  id : ℕ
  origin : Origin
  direction : Direction
  position : Point
  rotation : ℝ
  target_rotation : ℝ
  speed : ℝ
  stopped : Bool
  automatically_stopped : Bool
  path : List Point
  path_index : ℕ
  path_index_on_red_change : Option ℕ
  path_index_at_intersection : ℕ
  finished : Bool
  through_intersection : Bool

/-- Car::new in car.rs. -/
def Car.new (cfg : Config) (id : ℕ) (origin : Origin) (direction : Direction) : Car :=
  let rotation : ℝ :=
    match origin with
    | Origin.North => 90.0
    | Origin.South => 270.0
    | Origin.East => 180.0
    | Origin.West => 0.0
  let path : List Point :=
    match direction with
    | Direction.Left => generateLeftTurnPath cfg origin
    | Direction.Right => generateRightTurnPath cfg origin
    | Direction.Straight => generateStraightPath cfg origin
  { id := id
    origin := origin
    direction := direction
    position := getPosition cfg origin direction
    rotation := rotation
    target_rotation := rotation
    speed := 0.0
    stopped := false
    automatically_stopped := false
    path := path
    path_index := 1
    path_index_on_red_change := none
    path_index_at_intersection :=
      NUM_PATH_POINTS / 3 + (if direction = Direction.Straight then 1 else 0)
    finished := false
    through_intersection := false }

/-- Car::calculate_waiting_point_index in car.rs. -/
def calculateWaitingPointIndex (car : SimplifiedCar) : ℕ :=
  NUM_PATH_POINTS / 3 + (if car.direction = Direction.Straight then 1 else 0)

/-- Car::calculate_path in car.rs. -/
def calculatePath (cfg : Config) (car : SimplifiedCar) : List Point :=
  match car.direction with
  | Direction.Left => generateLeftTurnPath cfg car.origin
  | Direction.Right => generateRightTurnPath cfg car.origin
  | Direction.Straight => generateStraightPath cfg car.origin

/-- Car::get_distance_to_closest_car in car.rs: minimum Euclidean
distance to a same-origin same-direction vehicle with a different id
that is not behind this vehicle along the travel axis, starting from
f64::MAX. -/
def getDistanceToClosestCar (c : Car) (cars : List Car) : ℝ :=
  (cars.filter fun c2 =>
      decide (c2.origin = c.origin) && decide (c2.direction = c.direction) &&
        decide (c2.id ≠ c.id)).foldl
    (fun closest_distance c2 =>
      let x := c.position.1
      let y := c.position.2
      let cx := c2.position.1
      let cy := c2.position.2
      let skip : Prop :=
        match c.origin with
        | Origin.North => cy < y
        | Origin.South => cy > y
        | Origin.East => cx > x
        | Origin.West => cx < x
      if skip then closest_distance
      else min closest_distance (Real.sqrt ((x - cx) ^ 2 + (y - cy) ^ 2)))
    f64MAX

/-- Car::automatically_stop in car.rs: the car-following decision. -/
def automaticallyStop (c : Car) (cars : List Car) : Car :=
  if c.through_intersection = true then c
  else
    let closest_distance := getDistanceToClosestCar c cars
    if c.stopped = false ∧ closest_distance < CAR_WIDTH * 2.0 ∧ closest_distance > 3.0 then
      { c with stopped := true, automatically_stopped := true }
    else if c.stopped = true ∧ c.automatically_stopped = true ∧
        closest_distance > CAR_WIDTH * 2.0 then
      { c with stopped := false, automatically_stopped := false }
    else c

/-- Car::stop_for_traffic_light in car.rs: the light-stop decision. -/
def stopForTrafficLight (c : Car) (tl : TrafficLight) : Car :=
  if c.through_intersection = true then { c with stopped := false }
  else
    let can_go := tl.isGreen c.origin c.direction
    let can_go :=
      if can_go = false ∧ c.path_index ≠ c.path_index_at_intersection then true else can_go
    let c1 := if can_go = true then { c with path_index_on_red_change := none } else c
    { c1 with stopped := !can_go }

/-- Car::past_intersection in car.rs. -/
def pastIntersection (c : Car) : Bool :=
  decide (c.path_index > c.path_index_at_intersection)

/-- The intersection-entry bookkeeping and yellow-phase early release at
the start of Car::update (the remove_car notifications touch only the
scheduler's own occupancy state and so do not appear on the Car). -/
def throughStep (c : Car) (tl : TrafficLight) : Car :=
  let c1 :=
    if c.through_intersection = false ∧ pastIntersection c = true then
      { c with through_intersection := true }
    else c
  if tl.isYellow c1.origin c1.direction = true ∧
      c1.path_index = c1.path_index_at_intersection ∧
      c1.through_intersection = false then
    { c1 with through_intersection := true }
  else c1

/-- The speed update in Car::update: accelerate toward MAX_SPEED while
unstopped, decrement while stopped, reset to zero once nonpositive. -/
def speedStep (c : Car) : Car :=
  if c.stopped = false then
    let s := c.speed + ACCELERATION
    { c with speed := if s > MAX_SPEED then MAX_SPEED else s }
  else if c.speed > 0.0 then { c with speed := c.speed - DECELERATION }
  else { c with speed := 0.0 }

/-- Degrees to radians, as f64::to_radians. -/
def toRadians (d : ℝ) : ℝ := d * (Real.pi / 180.0)

/-- Radians to degrees, as f64::to_degrees. -/
def toDegrees (r : ℝ) : ℝ := r * (180.0 / Real.pi)

/-- Two-argument arctangent, as f64::atan2, via the complex argument. -/
def atan2 (y x : ℝ) : ℝ := Complex.arg ⟨x, y⟩

/-- The position integration in Car::update. -/
def moveStep (c : Car) : Car :=
  { c with
    position :=
      (c.position.1 + Real.cos (toRadians c.rotation) * c.speed,
       c.position.2 + Real.sin (toRadians c.rotation) * c.speed) }

/-- Car::intersects_point in car.rs. -/
def intersectsPoint (c : Car) (point : Point) : Prop :=
  Real.sqrt
      ((c.position.1 - point.1) * (c.position.1 - point.1) +
        (c.position.2 - point.2) * (c.position.2 - point.2)) <
    DISTANCE_THRESHOLD

/-- The waypoint advance in Car::update: advance the cursor when within
the distance threshold of the target waypoint, wrap and mark finished at
path end, and retarget the heading. -/
def waypointStep (c : Car) : Car :=
  if intersectsPoint c (c.path.getD c.path_index (0.0, 0.0)) then
    let c1 :=
      if c.path_index + 1 ≥ c.path.length then
        { c with path_index := 0, finished := true }
      else { c with path_index := c.path_index + 1 }
    if 1 ≤ c1.path_index then
      let dx := (c1.path.getD c1.path_index (0.0, 0.0)).1 - c1.position.1
      let dy := (c1.path.getD c1.path_index (0.0, 0.0)).2 - c1.position.2
      { c1 with target_rotation := toDegrees (atan2 dy dx) }
    else c1
  else c

/-- The heading-difference wrap at the end of Car::update: one
adjustment by a full turn toward the interval from -180 to 180. -/
def wrapDiff (diff : ℝ) : ℝ :=
  if diff > 180.0 then diff - 360.0 else if diff < -180.0 then diff + 360.0 else diff

/-- The heading interpolation at the end of Car::update: rotate by half
the wrapped difference toward the target heading. -/
def rotationStep (c : Car) : Car :=
  { c with rotation := c.rotation + wrapDiff (c.target_rotation - c.rotation) * 0.5 }

/-- Car::update in car.rs: the per-tick state machine, composed in
source order. -/
def Car.update (c : Car) (cars : List Car) (tl : TrafficLight) : Car :=
  rotationStep
    (waypointStep
      (moveStep
        (speedStep
          (automaticallyStop (stopForTrafficLight (throughStep c tl) tl) cars))))

/-- A sequence of update ticks: each tick supplies the ambient vehicle
list and the controller phases for that tick. -/
def runUpdates (c : Car) (inputs : List (List Car × TrafficLight)) : Car :=
  inputs.foldl (fun c p => Car.update c p.1 p.2) c

/-- ccw in car.rs, over exact (rational) coordinates: counter-clockwise
orientation test of a point triple. -/
def ccw (a b c : ℚ × ℚ) : Bool :=
  decide ((c.2 - a.2) * (b.1 - a.1) > (b.2 - a.2) * (c.1 - a.1))

/-- line_intersect in car.rs: strict segment-crossing test via
orientation comparisons. -/
def lineIntersect (line other_line : (ℚ × ℚ) × (ℚ × ℚ)) : Bool :=
  let a := line.1
  let b := line.2
  let c := other_line.1
  let d := other_line.2
  (ccw a c d != ccw b c d) && (ccw a b c != ccw a b d)

/-- A concrete 800 by 800 configuration used for concrete scenarios
(the crate-level WIDTH and HEIGHT are outside src/; the specific value
is irrelevant to every property proved below). -/
def cfg800 : Config := { width := 800.0, height := 800.0 }

/-- A controller state granting green (and no yellow) to every group. -/
def tlAllGreen : TrafficLight :=
  { isGreen := fun _ _ => true, isYellow := fun _ _ => false }

/-- A controller state granting no green and no yellow to any group. -/
def tlAllRed : TrafficLight :=
  { isGreen := fun _ _ => false, isYellow := fun _ _ => false }

/-- A concrete vehicle state used as the base of the concrete scenarios
below (a West-origin left-turner with the waiting index a left turn
gets, its cursor still on the approach third). -/
def baseCar : Car :=
  { id := 0
    origin := Origin.West
    direction := Direction.Left
    position := (0.0, 0.0)
    rotation := 0.0
    target_rotation := 0.0
    speed := 0.0
    stopped := false
    automatically_stopped := false
    path := []
    path_index := 1
    path_index_on_red_change := none
    path_index_at_intersection := 8
    finished := false
    through_intersection := false }

/-- A vehicle whose cursor sits exactly on the waiting index. -/
def carAtLine : Car := { baseCar with path_index := 8 }

/-- A vehicle already flagged through the intersection. -/
def carThrough : Car := { baseCar with through_intersection := true }

/-- A vehicle with a stale collision stop (stopped for a peer that has
since moved away). -/
def carStale : Car := { baseCar with stopped := true, automatically_stopped := true }

/-- A trailing vehicle positioned 50 units behind a leader. -/
def carFollower : Car := { baseCar with position := (0.0, 433.0) }

/-- A leading vehicle 50 units ahead of carFollower. -/
def carLeader : Car := { baseCar with id := 1, position := (50.0, 433.0) }

/-- A vehicle ahead of a freshly spawned West-origin left-turner after
one tick (50 units further along the travel axis). -/
def aheadCar : Car := { baseCar with id := 1, position := (25.15, 433.0) }

/-- A vehicle with heading 170 degrees and target heading -170 degrees
(the wrap-around scenario). -/
def car170 : Car := { baseCar with rotation := 170.0, target_rotation := -170.0 }

end

section ProjectionLemmas

variable (c : Car) (cars : List Car) (tl : TrafficLight)

@[simp] lemma rotationStep_stopped : (rotationStep c).stopped = c.stopped := rfl

@[simp] lemma rotationStep_auto :
    (rotationStep c).automatically_stopped = c.automatically_stopped := rfl

@[simp] lemma rotationStep_speed : (rotationStep c).speed = c.speed := rfl

@[simp] lemma rotationStep_position : (rotationStep c).position = c.position := rfl

@[simp] lemma rotationStep_through :
    (rotationStep c).through_intersection = c.through_intersection := rfl

@[simp] lemma rotationStep_path_index : (rotationStep c).path_index = c.path_index := rfl

@[simp] lemma rotationStep_origin : (rotationStep c).origin = c.origin := rfl

@[simp] lemma rotationStep_direction : (rotationStep c).direction = c.direction := rfl

@[simp] lemma rotationStep_id : (rotationStep c).id = c.id := rfl

@[simp] lemma rotationStep_waiting :
    (rotationStep c).path_index_at_intersection = c.path_index_at_intersection := rfl

@[simp] lemma moveStep_stopped : (moveStep c).stopped = c.stopped := rfl

@[simp] lemma moveStep_auto :
    (moveStep c).automatically_stopped = c.automatically_stopped := rfl

@[simp] lemma moveStep_speed : (moveStep c).speed = c.speed := rfl

@[simp] lemma moveStep_through :
    (moveStep c).through_intersection = c.through_intersection := rfl

@[simp] lemma moveStep_path_index : (moveStep c).path_index = c.path_index := rfl

@[simp] lemma moveStep_origin : (moveStep c).origin = c.origin := rfl

@[simp] lemma moveStep_direction : (moveStep c).direction = c.direction := rfl

@[simp] lemma moveStep_id : (moveStep c).id = c.id := rfl

@[simp] lemma moveStep_waiting :
    (moveStep c).path_index_at_intersection = c.path_index_at_intersection := rfl

@[simp] lemma speedStep_stopped : (speedStep c).stopped = c.stopped := by
  unfold speedStep; dsimp only; split_ifs <;> rfl

@[simp] lemma speedStep_auto :
    (speedStep c).automatically_stopped = c.automatically_stopped := by
  unfold speedStep; dsimp only; split_ifs <;> rfl

@[simp] lemma speedStep_position : (speedStep c).position = c.position := by
  unfold speedStep; dsimp only; split_ifs <;> rfl

@[simp] lemma speedStep_through :
    (speedStep c).through_intersection = c.through_intersection := by
  unfold speedStep; dsimp only; split_ifs <;> rfl

@[simp] lemma speedStep_path_index : (speedStep c).path_index = c.path_index := by
  unfold speedStep; dsimp only; split_ifs <;> rfl

@[simp] lemma speedStep_rotation : (speedStep c).rotation = c.rotation := by
  unfold speedStep; dsimp only; split_ifs <;> rfl

@[simp] lemma speedStep_origin : (speedStep c).origin = c.origin := by
  unfold speedStep; dsimp only; split_ifs <;> rfl

@[simp] lemma speedStep_direction : (speedStep c).direction = c.direction := by
  unfold speedStep; dsimp only; split_ifs <;> rfl

@[simp] lemma speedStep_id : (speedStep c).id = c.id := by
  unfold speedStep; dsimp only; split_ifs <;> rfl

@[simp] lemma speedStep_waiting :
    (speedStep c).path_index_at_intersection = c.path_index_at_intersection := by
  unfold speedStep; dsimp only; split_ifs <;> rfl

@[simp] lemma waypointStep_stopped : (waypointStep c).stopped = c.stopped := by
  unfold waypointStep; dsimp only; split_ifs <;> rfl

@[simp] lemma waypointStep_auto :
    (waypointStep c).automatically_stopped = c.automatically_stopped := by
  unfold waypointStep; dsimp only; split_ifs <;> rfl

@[simp] lemma waypointStep_speed : (waypointStep c).speed = c.speed := by
  unfold waypointStep; dsimp only; split_ifs <;> rfl

@[simp] lemma waypointStep_position : (waypointStep c).position = c.position := by
  unfold waypointStep; dsimp only; split_ifs <;> rfl

@[simp] lemma waypointStep_through :
    (waypointStep c).through_intersection = c.through_intersection := by
  unfold waypointStep; dsimp only; split_ifs <;> rfl

@[simp] lemma waypointStep_origin : (waypointStep c).origin = c.origin := by
  unfold waypointStep; dsimp only; split_ifs <;> rfl

@[simp] lemma waypointStep_direction : (waypointStep c).direction = c.direction := by
  unfold waypointStep; dsimp only; split_ifs <;> rfl

@[simp] lemma waypointStep_id : (waypointStep c).id = c.id := by
  unfold waypointStep; dsimp only; split_ifs <;> rfl

@[simp] lemma waypointStep_waiting :
    (waypointStep c).path_index_at_intersection = c.path_index_at_intersection := by
  unfold waypointStep; dsimp only; split_ifs <;> rfl

lemma waypointStep_path_index_le : (waypointStep c).path_index ≤ c.path_index + 1 := by
  unfold waypointStep; dsimp only; split_ifs <;> simp

@[simp] lemma automaticallyStop_speed : (automaticallyStop c cars).speed = c.speed := by
  unfold automaticallyStop; dsimp only; split_ifs <;> rfl

@[simp] lemma automaticallyStop_position :
    (automaticallyStop c cars).position = c.position := by
  unfold automaticallyStop; dsimp only; split_ifs <;> rfl

@[simp] lemma automaticallyStop_through :
    (automaticallyStop c cars).through_intersection = c.through_intersection := by
  unfold automaticallyStop; dsimp only; split_ifs <;> rfl

@[simp] lemma automaticallyStop_path_index :
    (automaticallyStop c cars).path_index = c.path_index := by
  unfold automaticallyStop; dsimp only; split_ifs <;> rfl

@[simp] lemma automaticallyStop_rotation :
    (automaticallyStop c cars).rotation = c.rotation := by
  unfold automaticallyStop; dsimp only; split_ifs <;> rfl

@[simp] lemma automaticallyStop_origin :
    (automaticallyStop c cars).origin = c.origin := by
  unfold automaticallyStop; dsimp only; split_ifs <;> rfl

@[simp] lemma automaticallyStop_direction :
    (automaticallyStop c cars).direction = c.direction := by
  unfold automaticallyStop; dsimp only; split_ifs <;> rfl

@[simp] lemma automaticallyStop_id : (automaticallyStop c cars).id = c.id := by
  unfold automaticallyStop; dsimp only; split_ifs <;> rfl

@[simp] lemma automaticallyStop_waiting :
    (automaticallyStop c cars).path_index_at_intersection =
      c.path_index_at_intersection := by
  unfold automaticallyStop; dsimp only; split_ifs <;> rfl

@[simp] lemma stopForTrafficLight_auto :
    (stopForTrafficLight c tl).automatically_stopped = c.automatically_stopped := by
  unfold stopForTrafficLight; dsimp only; split_ifs <;> rfl

@[simp] lemma stopForTrafficLight_speed :
    (stopForTrafficLight c tl).speed = c.speed := by
  unfold stopForTrafficLight; dsimp only; split_ifs <;> rfl

@[simp] lemma stopForTrafficLight_position :
    (stopForTrafficLight c tl).position = c.position := by
  unfold stopForTrafficLight; dsimp only; split_ifs <;> rfl

@[simp] lemma stopForTrafficLight_through :
    (stopForTrafficLight c tl).through_intersection = c.through_intersection := by
  unfold stopForTrafficLight; dsimp only; split_ifs <;> rfl

@[simp] lemma stopForTrafficLight_path_index :
    (stopForTrafficLight c tl).path_index = c.path_index := by
  unfold stopForTrafficLight; dsimp only; split_ifs <;> rfl

@[simp] lemma stopForTrafficLight_rotation :
    (stopForTrafficLight c tl).rotation = c.rotation := by
  unfold stopForTrafficLight; dsimp only; split_ifs <;> rfl

@[simp] lemma stopForTrafficLight_origin :
    (stopForTrafficLight c tl).origin = c.origin := by
  unfold stopForTrafficLight; dsimp only; split_ifs <;> rfl

@[simp] lemma stopForTrafficLight_direction :
    (stopForTrafficLight c tl).direction = c.direction := by
  unfold stopForTrafficLight; dsimp only; split_ifs <;> rfl

@[simp] lemma stopForTrafficLight_id :
    (stopForTrafficLight c tl).id = c.id := by
  unfold stopForTrafficLight; dsimp only; split_ifs <;> rfl

@[simp] lemma stopForTrafficLight_waiting :
    (stopForTrafficLight c tl).path_index_at_intersection =
      c.path_index_at_intersection := by
  unfold stopForTrafficLight; dsimp only; split_ifs <;> rfl

@[simp] lemma throughStep_stopped : (throughStep c tl).stopped = c.stopped := by
  unfold throughStep; dsimp only; split_ifs <;> rfl

@[simp] lemma throughStep_auto :
    (throughStep c tl).automatically_stopped = c.automatically_stopped := by
  unfold throughStep; dsimp only; split_ifs <;> rfl

@[simp] lemma throughStep_speed : (throughStep c tl).speed = c.speed := by
  unfold throughStep; dsimp only; split_ifs <;> rfl

@[simp] lemma throughStep_position : (throughStep c tl).position = c.position := by
  unfold throughStep; dsimp only; split_ifs <;> rfl

@[simp] lemma throughStep_path_index :
    (throughStep c tl).path_index = c.path_index := by
  unfold throughStep; dsimp only; split_ifs <;> rfl

@[simp] lemma throughStep_rotation : (throughStep c tl).rotation = c.rotation := by
  unfold throughStep; dsimp only; split_ifs <;> rfl

@[simp] lemma throughStep_origin : (throughStep c tl).origin = c.origin := by
  unfold throughStep; dsimp only; split_ifs <;> rfl

@[simp] lemma throughStep_direction :
    (throughStep c tl).direction = c.direction := by
  unfold throughStep; dsimp only; split_ifs <;> rfl

@[simp] lemma throughStep_id : (throughStep c tl).id = c.id := by
  unfold throughStep; dsimp only; split_ifs <;> rfl

@[simp] lemma throughStep_waiting :
    (throughStep c tl).path_index_at_intersection =
      c.path_index_at_intersection := by
  unfold throughStep; dsimp only; split_ifs <;> rfl

lemma update_stopped_eq :
    (Car.update c cars tl).stopped =
      (automaticallyStop (stopForTrafficLight (throughStep c tl) tl) cars).stopped := by
  simp [Car.update]

lemma update_auto_eq :
    (Car.update c cars tl).automatically_stopped =
      (automaticallyStop (stopForTrafficLight (throughStep c tl) tl)
          cars).automatically_stopped := by
  simp [Car.update]

lemma update_speed_eq :
    (Car.update c cars tl).speed =
      (speedStep
          (automaticallyStop (stopForTrafficLight (throughStep c tl) tl) cars)).speed := by
  simp [Car.update]

lemma update_through_eq :
    (Car.update c cars tl).through_intersection =
      (throughStep c tl).through_intersection := by
  simp [Car.update]

lemma update_position_eq :
    (Car.update c cars tl).position =
      (moveStep
          (speedStep
            (automaticallyStop (stopForTrafficLight (throughStep c tl) tl) cars))).position := by
  simp [Car.update]

@[simp] lemma update_origin : (Car.update c cars tl).origin = c.origin := by
  simp [Car.update]

@[simp] lemma update_direction : (Car.update c cars tl).direction = c.direction := by
  simp [Car.update]

@[simp] lemma update_id : (Car.update c cars tl).id = c.id := by
  simp [Car.update]

@[simp] lemma update_waiting :
    (Car.update c cars tl).path_index_at_intersection =
      c.path_index_at_intersection := by
  simp [Car.update]

lemma update_path_index_le :
    (Car.update c cars tl).path_index ≤ c.path_index + 1 := by
  have h := waypointStep_path_index_le
    (moveStep
      (speedStep (automaticallyStop (stopForTrafficLight (throughStep c tl) tl) cars)))
  simpa [Car.update] using h

end ProjectionLemmas

section NewCarLemmas

variable (cfg : Config) (idn : ℕ) (o : Origin) (d : Direction)

@[simp] lemma Car_new_stopped : (Car.new cfg idn o d).stopped = false := rfl

@[simp] lemma Car_new_auto : (Car.new cfg idn o d).automatically_stopped = false := rfl

@[simp] lemma Car_new_speed : (Car.new cfg idn o d).speed = 0.0 := rfl

@[simp] lemma Car_new_through : (Car.new cfg idn o d).through_intersection = false := rfl

@[simp] lemma Car_new_path_index : (Car.new cfg idn o d).path_index = 1 := rfl

@[simp] lemma Car_new_waiting :
    (Car.new cfg idn o d).path_index_at_intersection =
      NUM_PATH_POINTS / 3 + (if d = Direction.Straight then 1 else 0) := rfl

@[simp] lemma Car_new_position : (Car.new cfg idn o d).position = getPosition cfg o d := rfl

@[simp] lemma Car_new_origin : (Car.new cfg idn o d).origin = o := rfl

@[simp] lemma Car_new_direction : (Car.new cfg idn o d).direction = d := rfl

@[simp] lemma Car_new_id : (Car.new cfg idn o d).id = idn := rfl

@[simp] lemma tlAllGreen_isGreen : tlAllGreen.isGreen o d = true := rfl

@[simp] lemma tlAllGreen_isYellow : tlAllGreen.isYellow o d = false := rfl

@[simp] lemma tlAllRed_isGreen : tlAllRed.isGreen o d = false := rfl

@[simp] lemma tlAllRed_isYellow : tlAllRed.isYellow o d = false := rfl

end NewCarLemmas

section Characterizations

variable (c : Car) (cars : List Car) (tl : TrafficLight)

lemma throughStep_through_char :
    (throughStep c tl).through_intersection =
      (c.through_intersection || pastIntersection c ||
        (tl.isYellow c.origin c.direction &&
          decide (c.path_index = c.path_index_at_intersection))) := by
  unfold throughStep
  dsimp only
  by_cases hth : c.through_intersection = true
  · simp [hth]
  · have hth' : c.through_intersection = false := by simpa using hth
    by_cases hpast : pastIntersection c = true
    · simp [hth', hpast]
    · have hpast' : pastIntersection c = false := by simpa using hpast
      by_cases hy2 : tl.isYellow c.origin c.direction = true
      · by_cases hpi : c.path_index = c.path_index_at_intersection
        · simp [hth', hpast', hy2, hpi]
        · simp [hth', hpast', hy2, hpi]
      · have hy2' : tl.isYellow c.origin c.direction = false := by simpa using hy2
        simp [hth', hpast', hy2']

lemma stopForTrafficLight_stopped_of_through (h : c.through_intersection = true) :
    (stopForTrafficLight c tl).stopped = false := by
  unfold stopForTrafficLight
  rw [if_pos h]

lemma stopForTrafficLight_stopped_char (h : c.through_intersection = false) :
    (stopForTrafficLight c tl).stopped =
      !(tl.isGreen c.origin c.direction ||
          decide (c.path_index ≠ c.path_index_at_intersection)) := by
  unfold stopForTrafficLight
  rw [if_neg (by simp [h])]
  dsimp only
  split_ifs with h1 h2 <;> simp_all

lemma automaticallyStop_eq_of_through (h : c.through_intersection = true) :
    automaticallyStop c cars = c := by
  unfold automaticallyStop
  rw [if_pos h]

lemma automaticallyStop_eq_stop (h : c.through_intersection = false)
    (hc : c.stopped = false ∧ getDistanceToClosestCar c cars < CAR_WIDTH * 2.0 ∧
      getDistanceToClosestCar c cars > 3.0) :
    automaticallyStop c cars =
      { c with stopped := true, automatically_stopped := true } := by
  unfold automaticallyStop
  rw [if_neg (by simp [h])]
  dsimp only
  rw [if_pos hc]

lemma automaticallyStop_eq_release (h : c.through_intersection = false)
    (hnc : ¬(c.stopped = false ∧ getDistanceToClosestCar c cars < CAR_WIDTH * 2.0 ∧
      getDistanceToClosestCar c cars > 3.0))
    (hc : c.stopped = true ∧ c.automatically_stopped = true ∧
      getDistanceToClosestCar c cars > CAR_WIDTH * 2.0) :
    automaticallyStop c cars =
      { c with stopped := false, automatically_stopped := false } := by
  unfold automaticallyStop
  rw [if_neg (by simp [h])]
  dsimp only
  rw [if_neg hnc, if_pos hc]

lemma automaticallyStop_eq_self (h : c.through_intersection = false)
    (hnc : ¬(c.stopped = false ∧ getDistanceToClosestCar c cars < CAR_WIDTH * 2.0 ∧
      getDistanceToClosestCar c cars > 3.0))
    (hnc2 : ¬(c.stopped = true ∧ c.automatically_stopped = true ∧
      getDistanceToClosestCar c cars > CAR_WIDTH * 2.0)) :
    automaticallyStop c cars = c := by
  unfold automaticallyStop
  rw [if_neg (by simp [h])]
  dsimp only
  rw [if_neg hnc, if_neg hnc2]

lemma speedStep_speed_char :
    (speedStep c).speed =
      if c.stopped = false then
        (if c.speed + ACCELERATION > MAX_SPEED then MAX_SPEED else c.speed + ACCELERATION)
      else if c.speed > 0.0 then c.speed - DECELERATION else 0.0 := by
  unfold speedStep
  dsimp only
  split_ifs <;> rfl

lemma moveStep_position_char :
    (moveStep c).position =
      (c.position.1 + Real.cos (toRadians c.rotation) * c.speed,
       c.position.2 + Real.sin (toRadians c.rotation) * c.speed) := rfl

lemma getDistanceToClosestCar_congr (c2 : Car)
    (h1 : c2.position = c.position) (h2 : c2.origin = c.origin)
    (h3 : c2.direction = c.direction) (h4 : c2.id = c.id) :
    getDistanceToClosestCar c2 cars = getDistanceToClosestCar c cars := by
  unfold getDistanceToClosestCar
  simp only [h1, h2, h3, h4]

lemma getDistance_no_peer
    (h : ∀ c2 ∈ cars, ¬(c2.origin = c.origin ∧ c2.direction = c.direction ∧ c2.id ≠ c.id)) :
    getDistanceToClosestCar c cars = f64MAX := by
  unfold getDistanceToClosestCar
  have hf : (cars.filter fun c2 =>
      decide (c2.origin = c.origin) && decide (c2.direction = c.direction) &&
        decide (c2.id ≠ c.id)) = [] := by
    rw [List.filter_eq_nil_iff]
    intro a ha
    simpa using h a ha
  rw [hf]
  rfl

lemma f64MAX_big : CAR_WIDTH * 2.0 < f64MAX := by
  unfold f64MAX CAR_WIDTH
  norm_num

/-- Behaviour of one update tick for a vehicle not yet through the
intersection whose group has neither green nor yellow, with no pending
collision stop and no same-group peer: it ends up stopped for the light
exactly when its cursor sits on the waiting index. -/
lemma redLightChar (hth : c.through_intersection = false)
    (hg : tl.isGreen c.origin c.direction = false)
    (hy : tl.isYellow c.origin c.direction = false)
    (ha : c.automatically_stopped = false)
    (hpeer : ∀ c2 ∈ cars, ¬(c2.origin = c.origin ∧ c2.direction = c.direction ∧ c2.id ≠ c.id)) :
    (Car.update c cars tl).stopped =
      decide (c.path_index = c.path_index_at_intersection) ∧
    (Car.update c cars tl).automatically_stopped = false := by
  have hs1th : (throughStep c tl).through_intersection = pastIntersection c := by
    rw [throughStep_through_char]
    simp [hth, hy]
  by_cases hpast : c.path_index_at_intersection < c.path_index
  · have hpast' : pastIntersection c = true := by simp [pastIntersection, hpast]
    have h1 : (throughStep c tl).through_intersection = true := by rw [hs1th, hpast']
    have h2 : (stopForTrafficLight (throughStep c tl) tl).through_intersection = true := by
      simp [h1]
    have h3 := automaticallyStop_eq_of_through
      (stopForTrafficLight (throughStep c tl) tl) cars h2
    constructor
    · rw [update_stopped_eq, h3, stopForTrafficLight_stopped_of_through _ _ h1]
      have : ¬ c.path_index = c.path_index_at_intersection := by omega
      simp [this]
    · rw [update_auto_eq, h3]
      simp [ha]
  · have hpast' : pastIntersection c = false := by simp [pastIntersection, hpast]
    have h1 : (throughStep c tl).through_intersection = false := by rw [hs1th, hpast']
    have h2 : (stopForTrafficLight (throughStep c tl) tl).through_intersection = false := by
      simp [h1]
    have hstop2 : (stopForTrafficLight (throughStep c tl) tl).stopped =
        decide (c.path_index = c.path_index_at_intersection) := by
      rw [stopForTrafficLight_stopped_char _ _ h1]
      simp [hg, decide_not]
    have hauto2 : (stopForTrafficLight (throughStep c tl) tl).automatically_stopped = false := by
      simp [ha]
    have hd : getDistanceToClosestCar (stopForTrafficLight (throughStep c tl) tl) cars =
        f64MAX := by
      rw [getDistanceToClosestCar_congr c cars _ (by simp) (by simp) (by simp) (by simp)]
      exact getDistance_no_peer c cars hpeer
    have hnc : ¬((stopForTrafficLight (throughStep c tl) tl).stopped = false ∧
        getDistanceToClosestCar (stopForTrafficLight (throughStep c tl) tl) cars <
          CAR_WIDTH * 2.0 ∧
        getDistanceToClosestCar (stopForTrafficLight (throughStep c tl) tl) cars > 3.0) := by
      rw [hd]
      intro hc
      exact absurd hc.2.1 (not_lt.mpr (le_of_lt f64MAX_big))
    have hnc2 : ¬((stopForTrafficLight (throughStep c tl) tl).stopped = true ∧
        (stopForTrafficLight (throughStep c tl) tl).automatically_stopped = true ∧
        getDistanceToClosestCar (stopForTrafficLight (throughStep c tl) tl) cars >
          CAR_WIDTH * 2.0) := by
      rw [hauto2]
      intro hc
      exact absurd hc.2.1 (by simp)
    have h3 := automaticallyStop_eq_self
      (stopForTrafficLight (throughStep c tl) tl) cars h2 hnc hnc2
    constructor
    · rw [update_stopped_eq, h3, hstop2]
    · rw [update_auto_eq, h3, hauto2]

/-- Behaviour of one tick for a not-through vehicle on the approach
(yellow off) that the light logic lets go (green) while a same-group
peer sits in the following-gap window: the collision stop engages. -/
lemma collisionStopChar (c : Car) (cars : List Car) (tl : TrafficLight)
    (hth : c.through_intersection = false)
    (hp : c.path_index ≤ c.path_index_at_intersection)
    (hy : tl.isYellow c.origin c.direction = false)
    (hg : tl.isGreen c.origin c.direction = true)
    (hd1 : 3.0 < getDistanceToClosestCar c cars)
    (hd2 : getDistanceToClosestCar c cars < CAR_WIDTH * 2.0) :
    (Car.update c cars tl).stopped = true ∧
    (Car.update c cars tl).automatically_stopped = true ∧
    (Car.update c cars tl).speed =
      (if c.speed > 0.0 then c.speed - DECELERATION else 0.0) := by
  have hpast' : pastIntersection c = false := by
    simp only [pastIntersection, decide_eq_false_iff_not, not_lt]
    omega
  have h1 : (throughStep c tl).through_intersection = false := by
    rw [throughStep_through_char]
    simp [hth, hy, hpast']
  set s2 := stopForTrafficLight (throughStep c tl) tl with hs2
  have h2 : s2.through_intersection = false := by simp [hs2, h1]
  have hdEq : getDistanceToClosestCar s2 cars = getDistanceToClosestCar c cars := by
    apply getDistanceToClosestCar_congr <;> simp [hs2]
  have hstop2 : s2.stopped = false := by
    rw [hs2, stopForTrafficLight_stopped_char _ _ h1]
    simp [hg]
  have hstep : automaticallyStop s2 cars =
      { s2 with stopped := true, automatically_stopped := true } :=
    automaticallyStop_eq_stop s2 cars h2
      ⟨hstop2, by rw [hdEq]; exact hd2, by rw [hdEq]; exact hd1⟩
  refine ⟨?_, ?_, ?_⟩
  · rw [update_stopped_eq, ← hs2, hstep]
  · rw [update_auto_eq, ← hs2, hstep]
  · rw [update_speed_eq, ← hs2, hstep, speedStep_speed_char]
    have hsp : ({ s2 with stopped := true, automatically_stopped := true } : Car).speed =
        c.speed := by simp [hs2]
    rw [if_neg (by simp), hsp]

/-- Behaviour of one tick for a not-through vehicle on the approach
(yellow off) holding a collision stop whose peer has moved beyond the
following gap: the stopped flag is released, and the collision
sub-flag is cleared exactly when the light logic did not already
release the stop (group not green and cursor at the waiting index). -/
lemma collisionReleaseChar (c : Car) (cars : List Car) (tl : TrafficLight)
    (hth : c.through_intersection = false)
    (hp : c.path_index ≤ c.path_index_at_intersection)
    (hy : tl.isYellow c.origin c.direction = false)
    (hstop : c.stopped = true)
    (hauto : c.automatically_stopped = true)
    (hd : CAR_WIDTH * 2.0 < getDistanceToClosestCar c cars) :
    (Car.update c cars tl).stopped = false ∧
    (Car.update c cars tl).automatically_stopped =
      (tl.isGreen c.origin c.direction ||
        decide (c.path_index ≠ c.path_index_at_intersection)) := by
  have hpast' : pastIntersection c = false := by
    simp only [pastIntersection, decide_eq_false_iff_not, not_lt]
    omega
  have h1 : (throughStep c tl).through_intersection = false := by
    rw [throughStep_through_char]
    simp [hth, hy, hpast']
  set s2 := stopForTrafficLight (throughStep c tl) tl with hs2
  have h2 : s2.through_intersection = false := by simp [hs2, h1]
  have hdEq : getDistanceToClosestCar s2 cars = getDistanceToClosestCar c cars := by
    apply getDistanceToClosestCar_congr <;> simp [hs2]
  have hstop2 : s2.stopped =
      !(tl.isGreen c.origin c.direction ||
        decide (c.path_index ≠ c.path_index_at_intersection)) := by
    rw [hs2, stopForTrafficLight_stopped_char _ _ h1]
    simp
  have hauto2 : s2.automatically_stopped = true := by simp [hs2, hauto]
  have hnc1 : ¬(s2.stopped = false ∧ getDistanceToClosestCar s2 cars < CAR_WIDTH * 2.0 ∧
      getDistanceToClosestCar s2 cars > 3.0) := by
    rw [hdEq]
    intro hcc
    linarith [hcc.2.1]
  by_cases hgo : (tl.isGreen c.origin c.direction ||
      decide (c.path_index ≠ c.path_index_at_intersection)) = true
  · have hs2stopped : s2.stopped = false := by rw [hstop2, hgo]; rfl
    have hnc2 : ¬(s2.stopped = true ∧ s2.automatically_stopped = true ∧
        getDistanceToClosestCar s2 cars > CAR_WIDTH * 2.0) := by
      rw [hs2stopped]
      simp
    have hstep := automaticallyStop_eq_self s2 cars h2 hnc1 hnc2
    constructor
    · rw [update_stopped_eq, ← hs2, hstep, hs2stopped]
    · rw [update_auto_eq, ← hs2, hstep, hauto2, hgo]
  · have hgo' : (tl.isGreen c.origin c.direction ||
        decide (c.path_index ≠ c.path_index_at_intersection)) = false := by
      simpa using hgo
    have hs2stopped : s2.stopped = true := by rw [hstop2, hgo']; rfl
    have hc2 : s2.stopped = true ∧ s2.automatically_stopped = true ∧
        getDistanceToClosestCar s2 cars > CAR_WIDTH * 2.0 :=
      ⟨hs2stopped, hauto2, by rw [hdEq]; exact hd⟩
    have hstep := automaticallyStop_eq_release s2 cars h2 hnc1 hc2
    constructor
    · rw [update_stopped_eq, ← hs2, hstep]
    · rw [update_auto_eq, ← hs2, hstep, hgo']

/-- The closest-car distance against a single qualifying peer that is
not behind a West-origin vehicle. -/
lemma getDistance_single_ahead_west (c c2 : Car)
    (ho : c2.origin = c.origin) (hdq : c2.direction = c.direction) (hid : c2.id ≠ c.id)
    (hW : c.origin = Origin.West)
    (hnb : ¬ c2.position.1 < c.position.1) :
    getDistanceToClosestCar c [c2] =
      min f64MAX
        (Real.sqrt ((c.position.1 - c2.position.1) ^ 2 +
          (c.position.2 - c2.position.2) ^ 2)) := by
  unfold getDistanceToClosestCar
  have hpred : (decide (c2.origin = c.origin) && decide (c2.direction = c.direction) &&
      decide (c2.id ≠ c.id)) = true := by simp [ho, hdq, hid]
  simp only [List.filter_cons, hpred, if_true, List.filter_nil, List.foldl_cons,
    List.foldl_nil]
  rw [hW]
  rw [if_neg hnb]

end Characterizations

/-- C1 (corrected): for a vehicle not through the intersection whose
movement group has neither green nor yellow, with no pending collision
stop and no same-group peer, one update tick leaves it stopped for the
light exactly when its path cursor EQUALS the intersection index; a
cursor before the index (as well as past it) leaves the vehicle not
stopped — the red light halts a vehicle only at the stop-line waypoint
itself, not on the whole approach. -/
theorem c1_red_stop_exactly_at_waiting_index (c : Car) (cars : List Car) (tl : TrafficLight)
    (hth : c.through_intersection = false)
    (hg : tl.isGreen c.origin c.direction = false)
    (hy : tl.isYellow c.origin c.direction = false)
    (ha : c.automatically_stopped = false)
    (hpeer : ∀ c2 ∈ cars, ¬(c2.origin = c.origin ∧ c2.direction = c.direction ∧ c2.id ≠ c.id)) :
    (Car.update c cars tl).stopped =
      decide (c.path_index = c.path_index_at_intersection) ∧
    (Car.update c cars tl).automatically_stopped = false :=
  redLightChar c cars tl hth hg hy ha hpeer

/-- C1 counterexample: a freshly constructed vehicle (cursor 1, waiting
index 8) whose movement group is red is NOT left stopped by one update
tick, refuting the claim that a cursor before the intersection index
stays stopped under a non-green group. -/
theorem c1_cex_before_index_not_stopped :
    (Car.new cfg800 0 Origin.West Direction.Left).through_intersection = false ∧
    tlAllRed.isGreen (Car.new cfg800 0 Origin.West Direction.Left).origin
      (Car.new cfg800 0 Origin.West Direction.Left).direction = false ∧
    (Car.new cfg800 0 Origin.West Direction.Left).path_index <
      (Car.new cfg800 0 Origin.West Direction.Left).path_index_at_intersection ∧
    (Car.update (Car.new cfg800 0 Origin.West Direction.Left) [] tlAllRed).stopped = false := by
  refine ⟨rfl, rfl, by decide, ?_⟩
  have h := redLightChar (Car.new cfg800 0 Origin.West Direction.Left) [] tlAllRed
    rfl rfl rfl rfl (by simp)
  rw [h.1]
  simp [Car.new, NUM_PATH_POINTS]

/-- C1 witness: the amended theorem applied to a vehicle sitting exactly
at the waiting index under a red light. -/
theorem c1_witness_at_waiting_index :
    (Car.update carAtLine [] tlAllRed).stopped =
      decide (carAtLine.path_index = carAtLine.path_index_at_intersection) ∧
    (Car.update carAtLine [] tlAllRed).automatically_stopped = false :=
  c1_red_stop_exactly_at_waiting_index carAtLine [] tlAllRed rfl rfl rfl rfl (by simp)

/-- C4 (confirmed): a vehicle whose through-intersection flag is set is
never put back into a stopped state by an update tick, whatever the
scheduler phases are: the light-stop step itself clears the stopped
flag, the collision step skips such a vehicle entirely, and the flag
stays set. -/
theorem c4_through_never_stopped_by_light (c : Car) (cars : List Car) (tl : TrafficLight)
    (h : c.through_intersection = true) :
    (Car.update c cars tl).stopped = false ∧
    (Car.update c cars tl).through_intersection = true ∧
    (stopForTrafficLight c tl).stopped = false := by
  have h1 : (throughStep c tl).through_intersection = true := by
    rw [throughStep_through_char]
    simp [h]
  have h2 : (stopForTrafficLight (throughStep c tl) tl).through_intersection = true := by
    simp [h1]
  have h3 := automaticallyStop_eq_of_through
    (stopForTrafficLight (throughStep c tl) tl) cars h2
  refine ⟨?_, ?_, ?_⟩
  · rw [update_stopped_eq, h3, stopForTrafficLight_stopped_of_through _ _ h1]
  · rw [update_through_eq, h1]
  · exact stopForTrafficLight_stopped_of_through c tl h

/-- C4 witness: the theorem applied to a concrete through-flagged
vehicle under an all-red controller. -/
theorem c4_witness :
    (Car.update carThrough [] tlAllRed).stopped = false ∧
    (Car.update carThrough [] tlAllRed).through_intersection = true ∧
    (stopForTrafficLight carThrough tlAllRed).stopped = false :=
  c4_through_never_stopped_by_light carThrough [] tlAllRed rfl

/-- C5 (corrected): for a vehicle not through the intersection, on the
approach (cursor at or before the waiting index, group not in yellow):
(a) if the light logic lets it go (here: green) and the closest
same-group-ahead distance lies strictly between 3.0 and twice the
vehicle length, one tick sets both the stopped flag and the collision
sub-flag — but if the vehicle is simultaneously halted by a red light
at the waiting index the collision flags are NOT set, so the original
unconditional claim fails; (b) if it currently holds a collision stop
and the distance exceeds the threshold, one tick clears the stopped
flag, but the collision sub-flag is cleared only when the light logic
did not already release the stop (group not green with the cursor at
the waiting index); otherwise the sub-flag survives, so the original
"clears both flags" claim fails. -/
theorem c5_collision_stop_and_release (c : Car) (cars : List Car) (tl : TrafficLight)
    (hth : c.through_intersection = false)
    (hp : c.path_index ≤ c.path_index_at_intersection)
    (hy : tl.isYellow c.origin c.direction = false) :
    (tl.isGreen c.origin c.direction = true →
      c.stopped = false →
      3.0 < getDistanceToClosestCar c cars →
      getDistanceToClosestCar c cars < CAR_WIDTH * 2.0 →
      (Car.update c cars tl).stopped = true ∧
        (Car.update c cars tl).automatically_stopped = true) ∧
    (c.stopped = true →
      c.automatically_stopped = true →
      CAR_WIDTH * 2.0 < getDistanceToClosestCar c cars →
      (Car.update c cars tl).stopped = false ∧
        (Car.update c cars tl).automatically_stopped =
          (tl.isGreen c.origin c.direction ||
            decide (c.path_index ≠ c.path_index_at_intersection))) :=
  ⟨fun hg _ hd1 hd2 =>
    ⟨(collisionStopChar c cars tl hth hp hy hg hd1 hd2).1,
     (collisionStopChar c cars tl hth hp hy hg hd1 hd2).2.1⟩,
   fun hstop hauto hd => collisionReleaseChar c cars tl hth hp hy hstop hauto hd⟩

/-- The distance from the concrete follower to the concrete leader is
exactly 50 units. -/
lemma dist_follower_leader : getDistanceToClosestCar carFollower [carLeader] = 50 := by
  rw [getDistance_single_ahead_west carFollower carLeader rfl rfl (by decide) rfl
    (by norm_num [carFollower, carLeader, baseCar])]
  have h2500 : (carFollower.position.1 - carLeader.position.1) ^ 2 +
      (carFollower.position.2 - carLeader.position.2) ^ 2 = (50 : ℝ) ^ 2 := by
    norm_num [carFollower, carLeader, baseCar]
  rw [h2500, Real.sqrt_sq (by norm_num : (0 : ℝ) ≤ 50)]
  exact min_eq_right (by norm_num [f64MAX])

/-- C5 witness: both parts of the amended theorem at concrete inputs —
a follower 50 units behind a leader transitions to a collision stop in
one green tick, and a stale collision stop with no peer in sight is
released in one tick (with the sub-flag surviving, group being green). -/
theorem c5_witness :
    ((Car.update carFollower [carLeader] tlAllGreen).stopped = true ∧
      (Car.update carFollower [carLeader] tlAllGreen).automatically_stopped = true) ∧
    ((Car.update carStale [] tlAllGreen).stopped = false ∧
      (Car.update carStale [] tlAllGreen).automatically_stopped =
        (tlAllGreen.isGreen carStale.origin carStale.direction ||
          decide (carStale.path_index ≠ carStale.path_index_at_intersection))) :=
  ⟨(c5_collision_stop_and_release carFollower [carLeader] tlAllGreen rfl (by decide)
      rfl).1 rfl rfl (by rw [dist_follower_leader]; norm_num)
      (by rw [dist_follower_leader]; norm_num [CAR_WIDTH]),
   (c5_collision_stop_and_release carStale [] tlAllGreen rfl (by decide) rfl).2 rfl rfl
      (by rw [getDistance_no_peer carStale [] (by simp)]; exact f64MAX_big)⟩

/-- C5 counterexample: a vehicle holding a collision stop whose peer
has vanished (closest distance is f64::MAX, far beyond the threshold)
is released by one green-light tick, but the collision sub-flag
remains set — the tick does NOT clear both flags as claimed. -/
theorem c5_cex_release_keeps_subflag :
    carStale.stopped = true ∧ carStale.automatically_stopped = true ∧
    CAR_WIDTH * 2.0 < getDistanceToClosestCar carStale [] ∧
    (Car.update carStale [] tlAllGreen).stopped = false ∧
    (Car.update carStale [] tlAllGreen).automatically_stopped = true := by
  have hd : CAR_WIDTH * 2.0 < getDistanceToClosestCar carStale [] := by
    rw [getDistance_no_peer carStale [] (by simp)]
    exact f64MAX_big
  have h := collisionReleaseChar carStale [] tlAllGreen rfl (by decide) rfl rfl rfl hd
  exact ⟨rfl, rfl, hd, h.1, by rw [h.2]; rfl⟩

/-- C10 (confirmed): for a vehicle list containing no other vehicle of
the same movement group with a different id, the closest-car scan
returns f64::MAX, and an update tick never sets the collision-stop
sub-flag of such a lone vehicle. -/
theorem c10_lone_vehicle_no_collision_stop (c : Car) (cars : List Car) (tl : TrafficLight)
    (hpeer : ∀ c2 ∈ cars, ¬(c2.origin = c.origin ∧ c2.direction = c.direction ∧ c2.id ≠ c.id))
    (ha : c.automatically_stopped = false) :
    getDistanceToClosestCar c cars = f64MAX ∧
    (Car.update c cars tl).automatically_stopped = false := by
  refine ⟨getDistance_no_peer c cars hpeer, ?_⟩
  rw [update_auto_eq]
  set s2 := stopForTrafficLight (throughStep c tl) tl with hs2
  have hauto2 : s2.automatically_stopped = false := by simp [hs2, ha]
  by_cases h2 : s2.through_intersection = true
  · rw [automaticallyStop_eq_of_through _ _ h2]
    exact hauto2
  · have h2' : s2.through_intersection = false := by simpa using h2
    have hd : getDistanceToClosestCar s2 cars = f64MAX := by
      rw [getDistanceToClosestCar_congr c cars s2 (by simp [hs2]) (by simp [hs2])
        (by simp [hs2]) (by simp [hs2])]
      exact getDistance_no_peer c cars hpeer
    by_cases hb1 : s2.stopped = false ∧ getDistanceToClosestCar s2 cars < CAR_WIDTH * 2.0 ∧
        getDistanceToClosestCar s2 cars > 3.0
    · rw [hd] at hb1
      exact absurd hb1.2.1 (not_lt.mpr (le_of_lt f64MAX_big))
    · by_cases hb2 : s2.stopped = true ∧ s2.automatically_stopped = true ∧
          getDistanceToClosestCar s2 cars > CAR_WIDTH * 2.0
      · exact absurd hb2.2.1 (by simp [hauto2])
      · rw [automaticallyStop_eq_self _ _ h2' hb1 hb2]
        exact hauto2

/-- C10 witness: the theorem applied to a concrete vehicle with an
empty peer list. -/
theorem c10_witness :
    getDistanceToClosestCar baseCar [] = f64MAX ∧
    (Car.update baseCar [] tlAllGreen).automatically_stopped = false :=
  c10_lone_vehicle_no_collision_stop baseCar [] tlAllGreen (by simp) rfl

/-- C8 (confirmed): construction stores NUM_PATH_POINTS / 3 plus one
exactly for a Straight maneuver as the intersection index, and the
standalone calculate_waiting_point_index computes the same value for
the same movement group. -/
theorem c8_waiting_point_index (cfg : Config) (idn : ℕ) (o : Origin) (d : Direction) :
    (Car.new cfg idn o d).path_index_at_intersection =
      NUM_PATH_POINTS / 3 + (if d = Direction.Straight then 1 else 0) ∧
    calculateWaitingPointIndex { origin := o, direction := d } =
      (Car.new cfg idn o d).path_index_at_intersection :=
  ⟨rfl, rfl⟩

/-- C9 (confirmed): the direction decoder maps 0 to Left, 1 to Right
and 2 to Straight, and aborts (modelled as none) on every index greater
than 2; all other operations of this embedding are total functions. -/
theorem c9_direction_decoder :
    Direction.fromIndex 0 = some Direction.Left ∧
    Direction.fromIndex 1 = some Direction.Right ∧
    Direction.fromIndex 2 = some Direction.Straight ∧
    ∀ i : ℕ, 2 < i → Direction.fromIndex i = none := by
  refine ⟨rfl, rfl, rfl, ?_⟩
  intro i hi
  match i, hi with
  | n + 3, _ => rfl

/-- C9 witness: the decoder aborts on index 3. -/
theorem c9_witness : Direction.fromIndex 3 = none :=
  c9_direction_decoder.2.2.2 3 (by norm_num)

/-- C6 (confirmed): whenever the raw difference between target and
current heading is within plus or minus 540 degrees (which holds for
all headings within a turn and a half of each other, in particular for
the degree ranges the program produces), the wrapped difference lies in
the interval from -180 to 180, differs from the raw difference by a
multiple of 360, and the tick rotates the heading by half of it; in the
wrap-around scenario with heading 170 and target -170 the wrapped
difference is the short arc of 20 degrees, so the applied rotation is
+10 degrees, landing on 180. -/
theorem c6_heading_wrap (c : Car)
    (h : |c.target_rotation - c.rotation| ≤ 540) :
    (-180 ≤ wrapDiff (c.target_rotation - c.rotation) ∧
      wrapDiff (c.target_rotation - c.rotation) ≤ 180) ∧
    (wrapDiff (c.target_rotation - c.rotation) = c.target_rotation - c.rotation ∨
      wrapDiff (c.target_rotation - c.rotation) = c.target_rotation - c.rotation - 360 ∨
      wrapDiff (c.target_rotation - c.rotation) = c.target_rotation - c.rotation + 360) ∧
    (rotationStep c).rotation =
      c.rotation + wrapDiff (c.target_rotation - c.rotation) * 0.5 ∧
    wrapDiff ((-170 : ℝ) - 170) = 20 ∧
    (170 : ℝ) + wrapDiff ((-170 : ℝ) - 170) * 0.5 = 180 := by
  have habs := abs_le.mp h
  refine ⟨?_, ?_, rfl, ?_, ?_⟩
  · unfold wrapDiff
    split_ifs with h1 h2 <;> constructor <;> norm_num <;> linarith [habs.1, habs.2]
  · unfold wrapDiff
    split_ifs with h1 h2
    · right; left; norm_num
    · right; right; norm_num
    · left; rfl
  · unfold wrapDiff
    norm_num
  · unfold wrapDiff
    norm_num

/-- C6 witness: the theorem applied to the concrete 170 to -170
scenario vehicle. -/
theorem c6_witness :
    (-180 ≤ wrapDiff (car170.target_rotation - car170.rotation) ∧
      wrapDiff (car170.target_rotation - car170.rotation) ≤ 180) ∧
    (wrapDiff (car170.target_rotation - car170.rotation) =
        car170.target_rotation - car170.rotation ∨
      wrapDiff (car170.target_rotation - car170.rotation) =
        car170.target_rotation - car170.rotation - 360 ∨
      wrapDiff (car170.target_rotation - car170.rotation) =
        car170.target_rotation - car170.rotation + 360) ∧
    (rotationStep car170).rotation =
      car170.rotation + wrapDiff (car170.target_rotation - car170.rotation) * 0.5 ∧
    wrapDiff ((-170 : ℝ) - 170) = 20 ∧
    (170 : ℝ) + wrapDiff ((-170 : ℝ) - 170) * 0.5 = 180 :=
  c6_heading_wrap car170 (by norm_num [car170, baseCar])

/-- One update tick changes the speed in one of exactly four ways:
acceleration below the cap, clamp to the cap, deceleration from a
positive speed, or reset to zero. -/
lemma update_speed_shape (c : Car) (cars : List Car) (tl : TrafficLight) :
    ((Car.update c cars tl).speed = c.speed + ACCELERATION ∧
      c.speed + ACCELERATION ≤ MAX_SPEED) ∨
    (Car.update c cars tl).speed = MAX_SPEED ∨
    ((Car.update c cars tl).speed = c.speed - DECELERATION ∧ 0.0 < c.speed) ∨
    (Car.update c cars tl).speed = 0.0 := by
  rw [update_speed_eq]
  set s3 := automaticallyStop (stopForTrafficLight (throughStep c tl) tl) cars with hs3
  have hsp : s3.speed = c.speed := by simp [hs3]
  rw [speedStep_speed_char, hsp]
  by_cases h1 : s3.stopped = false
  · rw [if_pos h1]
    by_cases h2 : c.speed + ACCELERATION > MAX_SPEED
    · rw [if_pos h2]
      right; left; rfl
    · rw [if_neg h2]
      left
      exact ⟨rfl, not_lt.mp h2⟩
  · rw [if_neg h1]
    by_cases h2 : c.speed > 0.0
    · rw [if_pos h2]
      right; right; left
      exact ⟨rfl, h2⟩
    · rw [if_neg h2]
      right; right; right
      rfl

/-- The inductive speed bound carried through one tick. -/
lemma speed_inv_step (c : Car) (cars : List Car) (tl : TrafficLight)
    (hlo : -DECELERATION < c.speed) (hhi : c.speed ≤ MAX_SPEED) :
    -DECELERATION < (Car.update c cars tl).speed ∧
    (Car.update c cars tl).speed ≤ MAX_SPEED := by
  have hacc : (0 : ℝ) < ACCELERATION := by norm_num [ACCELERATION]
  have hdec : (0 : ℝ) < DECELERATION := by norm_num [DECELERATION]
  have hdm : -DECELERATION < MAX_SPEED := by norm_num [DECELERATION, MAX_SPEED]
  rcases update_speed_shape c cars tl with ⟨h, hle⟩ | h | ⟨h, hpos⟩ | h <;> rw [h]
  · exact ⟨by linarith, hle⟩
  · exact ⟨hdm, le_refl _⟩
  · exact ⟨by linarith, by linarith⟩
  · exact ⟨by linarith, by norm_num [MAX_SPEED]⟩

/-- The speed bound holds along every sequence of ticks from any state
satisfying it. -/
lemma runUpdates_speed_inv (inputs : List (List Car × TrafficLight)) :
    ∀ c : Car, -DECELERATION < c.speed → c.speed ≤ MAX_SPEED →
      -DECELERATION < (runUpdates c inputs).speed ∧
      (runUpdates c inputs).speed ≤ MAX_SPEED := by
  induction inputs with
  | nil =>
      intro c h1 h2
      simpa [runUpdates] using And.intro h1 h2
  | cons hd tl ih =>
      intro c h1 h2
      have hstep := speed_inv_step c hd.1 hd.2 h1 h2
      have hrest := ih (Car.update c hd.1 hd.2) hstep.1 hstep.2
      simpa [runUpdates] using hrest

/-- C3 (corrected): along every sequence of update ticks from
construction the speed stays in the interval from -DECELERATION
(exclusive) to MAX_SPEED (inclusive).  The original claimed lower bound
of zero fails: the stopped branch subtracts the decrement first and
clamps to zero only on the NEXT stopped tick, so a vehicle stopping at
a small positive speed dips below zero for one tick. -/
theorem c3_speed_bounds (cfg : Config) (idn : ℕ) (o : Origin) (d : Direction)
    (inputs : List (List Car × TrafficLight)) :
    -DECELERATION < (runUpdates (Car.new cfg idn o d) inputs).speed ∧
    (runUpdates (Car.new cfg idn o d) inputs).speed ≤ MAX_SPEED := by
  apply runUpdates_speed_inv
  · norm_num [DECELERATION]
  · norm_num [MAX_SPEED]

/-- The observable fields of a freshly spawned West-origin left-turner
after one tick with an empty peer list under an all-green controller:
it accelerates to 0.15 and advances 0.15 units along the x axis. -/
lemma tick1_fields :
    (Car.update (Car.new cfg800 0 Origin.West Direction.Left) [] tlAllGreen).stopped =
      false ∧
    (Car.update (Car.new cfg800 0 Origin.West Direction.Left) []
        tlAllGreen).automatically_stopped = false ∧
    (Car.update (Car.new cfg800 0 Origin.West Direction.Left) []
        tlAllGreen).through_intersection = false ∧
    (Car.update (Car.new cfg800 0 Origin.West Direction.Left) [] tlAllGreen).speed =
      0.15 ∧
    (Car.update (Car.new cfg800 0 Origin.West Direction.Left) [] tlAllGreen).position =
      (-24.85, 433) := by
  have hpast : pastIntersection (Car.new cfg800 0 Origin.West Direction.Left) = false := by
    decide
  have h1 : (throughStep (Car.new cfg800 0 Origin.West Direction.Left)
      tlAllGreen).through_intersection = false := by
    rw [throughStep_through_char]
    simp [hpast]
  set s2 := stopForTrafficLight
    (throughStep (Car.new cfg800 0 Origin.West Direction.Left) tlAllGreen) tlAllGreen
    with hs2
  have h2 : s2.through_intersection = false := by simp [hs2, h1]
  have hs2stop : s2.stopped = false := by
    rw [hs2, stopForTrafficLight_stopped_char _ _ h1]
    simp
  have hs2auto : s2.automatically_stopped = false := by simp [hs2]
  have hs2speed : s2.speed = 0.0 := by simp [hs2]
  have hs2rot : s2.rotation = 0.0 := by
    rw [hs2]
    simp only [stopForTrafficLight_rotation, throughStep_rotation]
    rfl
  have hs2pos : s2.position = (-25, 433) := by
    rw [hs2]
    simp [getPosition, cfg800, CAR_WIDTH, LANE_WIDTH, CAR_HEIGHT]
    norm_num
  have hdist : getDistanceToClosestCar s2 [] = f64MAX :=
    getDistance_no_peer s2 [] (by simp)
  have hnc1 : ¬(s2.stopped = false ∧ getDistanceToClosestCar s2 [] < CAR_WIDTH * 2.0 ∧
      getDistanceToClosestCar s2 [] > 3.0) := by
    rw [hdist]
    intro hc
    exact absurd hc.2.1 (not_lt.mpr (le_of_lt f64MAX_big))
  have hnc2 : ¬(s2.stopped = true ∧ s2.automatically_stopped = true ∧
      getDistanceToClosestCar s2 [] > CAR_WIDTH * 2.0) := by
    rw [hs2auto]
    simp
  have hs3 : automaticallyStop s2 [] = s2 := automaticallyStop_eq_self s2 [] h2 hnc1 hnc2
  have hspeedval : (speedStep s2).speed = 0.15 := by
    rw [speedStep_speed_char, if_pos hs2stop, hs2speed]
    rw [if_neg (by norm_num [ACCELERATION, MAX_SPEED])]
    norm_num [ACCELERATION]
  refine ⟨?_, ?_, ?_, ?_, ?_⟩
  · rw [update_stopped_eq, ← hs2, hs3, hs2stop]
  · rw [update_auto_eq, ← hs2, hs3, hs2auto]
  · rw [update_through_eq, h1]
  · rw [update_speed_eq, ← hs2, hs3, hspeedval]
  · rw [update_position_eq, ← hs2, hs3, moveStep_position_char]
    rw [speedStep_position, speedStep_rotation, hspeedval, hs2pos, hs2rot]
    have hrad : toRadians 0.0 = 0 := by norm_num [toRadians]
    rw [hrad, Real.cos_zero, Real.sin_zero]
    norm_num

/-- C3 counterexample: from construction, one green tick with no peers
brings the speed to 0.15; a second tick in which a same-group vehicle
sits 50 units ahead triggers a collision stop, and the stopped branch
yields speed 0.15 - 0.3 = -0.15 — the speed is negative, refuting the
claimed lower bound of zero. -/
theorem c3_cex_negative_speed :
    (Car.update (Car.update (Car.new cfg800 0 Origin.West Direction.Left) [] tlAllGreen)
        [aheadCar] tlAllGreen).speed < 0 := by
  obtain ⟨hb_stop, hb_auto, hb_thr, hb_speed, hb_pos⟩ := tick1_fields
  set c1 := Car.update (Car.new cfg800 0 Origin.West Direction.Left) [] tlAllGreen
    with hc1
  have hpile : c1.path_index ≤ 2 := by
    have h := update_path_index_le (Car.new cfg800 0 Origin.West Direction.Left) []
      tlAllGreen
    simpa using h
  have hpi : c1.path_index ≤ c1.path_index_at_intersection := by
    have hw : c1.path_index_at_intersection = 8 := by
      rw [hc1, update_waiting]
      rfl
    omega
  have horig : c1.origin = Origin.West := by rw [hc1, update_origin, Car_new_origin]
  have hdir : c1.direction = Direction.Left := by rw [hc1, update_direction, Car_new_direction]
  have hid : c1.id = 0 := by rw [hc1, update_id, Car_new_id]
  have hdist : getDistanceToClosestCar c1 [aheadCar] = 50 := by
    rw [getDistance_single_ahead_west c1 aheadCar (by rw [horig]; rfl)
      (by rw [hdir]; rfl) (by rw [hid]; decide) horig
      (by rw [hb_pos]; norm_num [aheadCar, baseCar])]
    rw [hb_pos]
    have hval : ((-24.85 : ℝ), (433 : ℝ)).1 - aheadCar.position.1 = -50 := by
      norm_num [aheadCar, baseCar]
    have hval2 : ((-24.85 : ℝ), (433 : ℝ)).2 - aheadCar.position.2 = 0 := by
      norm_num [aheadCar, baseCar]
    rw [hval, hval2]
    rw [show ((-50 : ℝ)) ^ 2 + (0 : ℝ) ^ 2 = (50 : ℝ) ^ 2 by norm_num]
    rw [Real.sqrt_sq (by norm_num : (0 : ℝ) ≤ 50)]
    exact min_eq_right (by norm_num [f64MAX])
  have hy : tlAllGreen.isYellow c1.origin c1.direction = false := rfl
  have hg : tlAllGreen.isGreen c1.origin c1.direction = true := rfl
  have h := collisionStopChar c1 [aheadCar] tlAllGreen hb_thr hpi hy hg
    (by rw [hdist]; norm_num) (by rw [hdist]; norm_num [CAR_WIDTH])
  rw [h.2.2, hb_speed, if_pos (by norm_num)]
  norm_num [DECELERATION]

lemma Car_new_path (cfg : Config) (idn : ℕ) (o : Origin) (d : Direction) :
    (Car.new cfg idn o d).path =
      (match d with
        | Direction.Left => generateLeftTurnPath cfg o
        | Direction.Right => generateRightTurnPath cfg o
        | Direction.Straight => generateStraightPath cfg o) := rfl

lemma straightPathThird_length (cfg : Config) (o : Origin) (d : Direction) :
    (straightPathThird cfg o d).length = NUM_PATH_POINTS / 3 := by
  unfold straightPathThird
  cases o <;> dsimp only <;> rw [List.length_map, List.length_range]

lemma generateLeftTurnPath_length (cfg : Config) (o : Origin) :
    (generateLeftTurnPath cfg o).length = 24 := by
  unfold generateLeftTurnPath
  cases o <;> dsimp only <;>
    simp only [List.length_append, List.length_reverse, List.length_map,
      List.length_range, straightPathThird_length] <;>
    norm_num [NUM_PATH_POINTS]

lemma generateRightTurnPath_length (cfg : Config) (o : Origin) :
    (generateRightTurnPath cfg o).length = 24 := by
  unfold generateRightTurnPath
  cases o <;> dsimp only <;>
    simp only [List.length_append, List.length_reverse, List.length_map,
      List.length_range, straightPathThird_length] <;>
    norm_num [NUM_PATH_POINTS]

lemma generateStraightPath_length (cfg : Config) (o : Origin) :
    (generateStraightPath cfg o).length = NUM_PATH_POINTS := by
  unfold generateStraightPath
  cases o <;> dsimp only <;> rw [List.length_map, List.length_range]

/-- C2 (corrected): NUM_PATH_POINTS is 25, which is not divisible by 3,
and each of the three thirds of a turn path contributes only
NUM_PATH_POINTS / 3 = 8 points, so left- and right-turn paths have 24
points, one short of the configured 25; only straight paths have
exactly NUM_PATH_POINTS points. -/
theorem c2_path_lengths (cfg : Config) (idn : ℕ) (o : Origin) (d : Direction) :
    (generateLeftTurnPath cfg o).length = 24 ∧
    (generateRightTurnPath cfg o).length = 24 ∧
    (generateStraightPath cfg o).length = NUM_PATH_POINTS ∧
    (Car.new cfg idn o d).path.length =
      (if d = Direction.Straight then NUM_PATH_POINTS else 24) := by
  refine ⟨generateLeftTurnPath_length cfg o, generateRightTurnPath_length cfg o,
    generateStraightPath_length cfg o, ?_⟩
  rw [Car_new_path]
  cases d <;>
    simp [generateLeftTurnPath_length, generateRightTurnPath_length,
      generateStraightPath_length]

/-- C2 counterexample: the North left-turn path has 24 points, not the
configured NUM_PATH_POINTS = 25, refuting the claim that every
(origin, direction) pair yields a path of exactly 25 points. -/
theorem c2_cex_left_path_not_25 :
    (Car.new cfg800 0 Origin.North Direction.Left).path.length ≠ NUM_PATH_POINTS := by
  rw [Car_new_path]
  simp [generateLeftTurnPath_length, NUM_PATH_POINTS]

lemma ccw_cyc (p q r : ℚ × ℚ) : ccw p q r = ccw q r p := by
  unfold ccw
  rw [decide_eq_decide]
  have key : (r.2 - p.2) * (q.1 - p.1) - (q.2 - p.2) * (r.1 - p.1) =
      (p.2 - q.2) * (r.1 - q.1) - (r.2 - q.2) * (p.1 - q.1) := by ring
  constructor <;> intro h <;> linarith [key]

lemma ccw_swap12 (p q r : ℚ × ℚ) (h : ccw q p r = true) : ccw p q r = false := by
  unfold ccw at h ⊢
  rw [decide_eq_true_eq] at h
  rw [decide_eq_false_iff_not]
  intro h2
  have key : ((r.2 - q.2) * (p.1 - q.1) - (p.2 - q.2) * (r.1 - q.1)) +
      ((r.2 - p.2) * (q.1 - p.1) - (q.2 - p.2) * (r.1 - p.1)) = 0 := by ring
  linarith

lemma ccw_swap23 (p q r : ℚ × ℚ) (h : ccw p r q = true) : ccw p q r = false := by
  unfold ccw at h ⊢
  rw [decide_eq_true_eq] at h
  rw [decide_eq_false_iff_not]
  intro h2
  have key : ((q.2 - p.2) * (r.1 - p.1) - (r.2 - p.2) * (q.1 - p.1)) +
      ((r.2 - p.2) * (q.1 - p.1) - (q.2 - p.2) * (r.1 - p.1)) = 0 := by ring
  linarith

lemma ccw_aad (a d : ℚ × ℚ) : ccw a a d = false := by
  unfold ccw
  rw [decide_eq_false_iff_not]
  intro h
  have h1 : (d.2 - a.2) * (a.1 - a.1) = 0 := by ring
  have h2 : (a.2 - a.2) * (d.1 - a.1) = 0 := by ring
  rw [h1, h2] at h
  exact lt_irrefl 0 h

lemma ccw_aba (a b : ℚ × ℚ) : ccw a b a = false := by
  unfold ccw
  rw [decide_eq_false_iff_not]
  intro h
  have h1 : (a.2 - a.2) * (b.1 - a.1) = 0 := by ring
  have h2 : (b.2 - a.2) * (a.1 - a.1) = 0 := by ring
  rw [h1, h2] at h
  exact lt_irrefl 0 h

lemma ccw_abb (a b : ℚ × ℚ) : ccw a b b = false := by
  unfold ccw
  rw [decide_eq_false_iff_not]
  exact lt_irrefl _

lemma lineIntersect_symm (l1 l2 : (ℚ × ℚ) × (ℚ × ℚ)) :
    lineIntersect l1 l2 = lineIntersect l2 l1 := by
  unfold lineIntersect
  dsimp only
  rw [ccw_cyc l2.1 l1.1 l1.2, ccw_cyc l2.2 l1.1 l1.2,
    ccw_cyc l2.1 l2.2 l1.1, ccw_cyc l2.2 l1.1 l2.1,
    ccw_cyc l2.1 l2.2 l1.2, ccw_cyc l2.2 l1.2 l2.1]
  exact (Bool.and_comm _ _).symm

lemma lineIntersect_shared_first (a b d : ℚ × ℚ) :
    lineIntersect (a, b) (a, d) = false := by
  unfold lineIntersect
  dsimp only
  rw [ccw_aad a d, ccw_aba a b]
  cases h : ccw a b d
  · simp [h]
  · rw [ccw_swap12 b a d h]
    rfl

lemma lineIntersect_shared_second (a b c : ℚ × ℚ) :
    lineIntersect (a, b) (c, b) = false := by
  unfold lineIntersect
  dsimp only
  rw [ccw_aba b c, ccw_abb a b]
  cases h : ccw a b c
  · simp [h]
  · rw [ccw_swap23 a c b h]
    rfl

/-- C7 (corrected): the segment-intersection test is symmetric for all
segment pairs (by cyclic invariance of the orientation determinant),
and two segments whose FIRST endpoints coincide, or whose SECOND
endpoints coincide, always report non-intersecting (in particular a
segment never intersects itself).  However the strict-endpoint part of
the original claim fails in the remaining pairing: a segment whose
second endpoint is the first endpoint of the other can report
intersecting. -/
theorem c7_line_intersect_symm_endpoints :
    (∀ l1 l2 : (ℚ × ℚ) × (ℚ × ℚ), lineIntersect l1 l2 = lineIntersect l2 l1) ∧
    (∀ l1 l2 : (ℚ × ℚ) × (ℚ × ℚ),
      l1.1 = l2.1 ∨ l1.2 = l2.2 → lineIntersect l1 l2 = false) := by
  constructor
  · exact lineIntersect_symm
  · rintro ⟨a, b⟩ ⟨c, d⟩ (h | h) <;> dsimp only at h <;> subst h
    · exact lineIntersect_shared_first a b d
    · exact lineIntersect_shared_second a b c

/-- C7 counterexample: the horizontal segment from (0,0) to (1,0) and
the vertical segment from (1,0) to (1,1) touch only at the shared
endpoint (1,0), yet the test reports them as intersecting — shared
endpoints are not universally excluded. -/
theorem c7_cex_shared_endpoint_intersects :
    lineIntersect (((0 : ℚ), (0 : ℚ)), ((1 : ℚ), (0 : ℚ)))
        (((1 : ℚ), (0 : ℚ)), ((1 : ℚ), (1 : ℚ))) = true ∧
    (((0 : ℚ), (0 : ℚ)), ((1 : ℚ), (0 : ℚ))).2 =
      (((1 : ℚ), (0 : ℚ)), ((1 : ℚ), (1 : ℚ))).1 := by
  have h1 : ccw ((0 : ℚ), (0 : ℚ)) ((1 : ℚ), (0 : ℚ)) ((1 : ℚ), (1 : ℚ)) = true := by
    unfold ccw
    norm_num
  have h2 : ccw ((1 : ℚ), (0 : ℚ)) ((1 : ℚ), (0 : ℚ)) ((1 : ℚ), (1 : ℚ)) = false := by
    unfold ccw
    norm_num
  have h3 : ccw ((0 : ℚ), (0 : ℚ)) ((1 : ℚ), (0 : ℚ)) ((1 : ℚ), (0 : ℚ)) = false := by
    unfold ccw
    norm_num
  constructor
  · unfold lineIntersect
    dsimp only
    rw [h1, h2, h3]
    rfl
  · rfl

/-- C7 witness: two segments sharing their first endpoint report
non-intersecting, and the symmetry law at a concrete crossing pair. -/
theorem c7_witness :
    lineIntersect (((0 : ℚ), (0 : ℚ)), ((1 : ℚ), (0 : ℚ)))
      (((0 : ℚ), (0 : ℚ)), ((0 : ℚ), (1 : ℚ))) = false :=
  c7_line_intersect_symm_endpoints.2 _ _ (Or.inl rfl)

end TrafficSim
